import Mathlib

/-!
Verification of the Canvas MCP server (`src/index.ts`).

Modelling conventions for the shallow embedding:
* JavaScript numbers that hold identifiers, counts and epoch milliseconds are
  modelled as `Int` (or `Nat` for list lengths); the completion-rate arithmetic
  is modelled over `ℚ` with JS `Math.round x = ⌊x + 1/2⌋` and
  `Math.ceil` as `Int.ceil`.
* ISO timestamp strings are modelled as already-parsed epoch milliseconds:
  a `string | null` field such as `due_at` becomes `Option Int`, with `none`
  for `null`.  `new Date(null).getTime() = 0` is modelled by `Option.getD 0`.
* A nullable timestamp that the code tests for truthiness
  (`a.submission.submitted_at`) is `Option String`; a present timestamp is a
  non-empty string, so JS truthiness coincides with `Option.isSome`.
* Network fetches return their decoded JSON; handlers are modelled as pure
  functions of the fetched data.  Fetch/handler failure is modelled by
  `Except`: a thrown `McpError` and a thrown generic `Error` are the two
  constructors of `JsThrown`.
* `Array.prototype.sort` with the numeric comparator
  `(a, b) => dueTime a - dueTime b` is a stable ascending sort by the key,
  modelled by `List.mergeSort`.
-/

/-- Model of `ErrorCode` from `@modelcontextprotocol/sdk/types.js`,
restricted to the two codes the server uses. -/
inductive ErrorCode where
  | methodNotFound
  | internalError
deriving DecidableEq, Repr

/-- An `McpError` value: a protocol error code plus a message. -/
structure McpErrorModel where
  code : ErrorCode
  message : String
deriving DecidableEq, Repr

/-- A value thrown inside a tool handler: either an `McpError` (recognised by
the dispatcher's `instanceof McpError` test) or a generic `Error` carrying a
message. -/
inductive JsThrown where
  | mcp (code : ErrorCode) (message : String)
  | js (message : String)
deriving DecidableEq, Repr

/-- The `Course` interface (`src/index.ts` lines 34-39). -/
structure Course where
  id : Int
  name : String
  course_code : String
  enrollment_term_id : Int
deriving DecidableEq, Repr

/-- A submission object as used by `getCourseProgress`: only its
`submitted_at` timestamp matters (`null` ↦ `none`). -/
structure Submission where
  submitted_at : Option String
deriving DecidableEq, Repr

/-- The `Assignment` interface (`src/index.ts` lines 24-32), with `due_at`
parsed to epoch milliseconds and the optional `submission` object attached by
`include[]=submission` fetches (absent ↦ `none`). -/
structure Assignment where
  id : Int
  name : String
  due_at : Option Int
  points_possible : Int
  submission_types : List String
  course_id : Int
  html_url : String
  submission : Option Submission
deriving DecidableEq, Repr

/-! ## Configuration and constructor (`src/index.ts` lines 16, 55-78) -/

/-- The hard-coded base-URL default (`src/index.ts` line 16). -/
def CANVAS_BASE_URL : String := "https://bruinlearn.ucla.edu"

/-- The `CanvasConfig` interface (`src/index.ts` lines 19-22). -/
structure CanvasConfig where
  baseUrl : String
  accessToken : String
deriving DecidableEq, Repr

/-- The relevant slice of `process.env`: each variable is absent (`none`) or a
string (possibly empty). -/
structure ProcessEnv where
  canvasBaseUrl : Option String
  canvasAccessToken : Option String
deriving DecidableEq, Repr

/-- JS `v || d` for an optional environment string: absent and the empty
string are falsy. -/
def jsOrString (v : Option String) (d : String) : String :=
  match v with
  | none => d
  | some s => if s == "" then d else s

/-- The `CanvasMCPServer` constructor (`src/index.ts` lines 55-78) up to and
including the token check.  It only reads the environment and builds the
config record; `fetch` never appears in the constructor, so no network call
can precede the thrown configuration error. -/
def mkServerConfig (env : ProcessEnv) : Except String CanvasConfig :=
  let config : CanvasConfig :=
    { baseUrl := jsOrString env.canvasBaseUrl CANVAS_BASE_URL
      accessToken := jsOrString env.canvasAccessToken "" }
  if config.accessToken == "" then
    Except.error "CANVAS_ACCESS_TOKEN environment variable is required"
  else
    Except.ok config

/-! ## Tool registry (`src/index.ts` lines 105-191) -/

/-- One entry of the `ListToolsRequestSchema` response: name, description,
and the input schema's property names and required list. -/
structure ToolDecl where
  name : String
  description : String
  properties : List String
  required : List String
deriving DecidableEq, Repr

/-- The static tool list returned by the `ListToolsRequestSchema` handler
(`src/index.ts` lines 105-191). -/
def listTools : List ToolDecl :=
  [ { name := "get_courses"
      description := "Get all enrolled courses"
      properties := []
      required := [] }
  , { name := "get_assignments"
      description := "Get assignments for a specific course or all courses"
      properties := ["course_id", "include_completed"]
      required := [] }
  , { name := "get_upcoming_assignments"
      description := "Get upcoming assignments with deadlines"
      properties := ["days_ahead"]
      required := [] }
  , { name := "get_grades"
      description := "Get grades for a specific course or all courses"
      properties := ["course_id"]
      required := [] }
  , { name := "get_course_progress"
      description := "Get detailed progress information for a course"
      properties := ["course_id"]
      required := ["course_id"] }
  , { name := "search_assignments"
      description := "Search for assignments by name or keyword"
      properties := ["query"]
      required := ["query"] } ]

/-- The names of the registered tools, as declared by the registry. -/
def registeredToolNames : List String := listTools.map ToolDecl.name

/-! ## Dispatcher (`src/index.ts` lines 193-231) -/

/-- The argument mapping of a call-tool request; every field is optional
(`args` itself may be `undefined`, collapsing to all-`none`). -/
structure ToolArgs where
  course_id : Option Int
  include_completed : Option Bool
  days_ahead : Option Int
  query : Option String
deriving DecidableEq, Repr

/-- JS `v || d` for an optional number: `undefined` and `0` are falsy. -/
def jsOrNum (v : Option Int) (d : Int) : Int :=
  match v with
  | none => d
  | some n => if n == 0 then d else n

/-- The six handler methods, abstracted over their outcome: each one may
return a result or throw (`JsThrown`).  The argument signatures mirror the
calls in the dispatcher's `switch`. -/
structure Handlers (α : Type) where
  getCourses : Except JsThrown α
  getAssignments : Option Int → Option Bool → Except JsThrown α
  getUpcomingAssignments : Int → Except JsThrown α
  getGrades : Option Int → Except JsThrown α
  getCourseProgress : Option Int → Except JsThrown α
  searchAssignments : Option String → Except JsThrown α

/-- The `switch` statement of the `CallToolRequestSchema` handler
(`src/index.ts` lines 197-221): route by name, coercing
`(args?.days_ahead as number) || 7`, and throw
`McpError(MethodNotFound, ...)` for an unknown name. -/
def switchDispatch {α : Type} (h : Handlers α) (name : String) (args : ToolArgs) :
    Except JsThrown α :=
  if name == "get_courses" then h.getCourses
  else if name == "get_assignments" then
    h.getAssignments args.course_id args.include_completed
  else if name == "get_upcoming_assignments" then
    h.getUpcomingAssignments (jsOrNum args.days_ahead 7)
  else if name == "get_grades" then h.getGrades args.course_id
  else if name == "get_course_progress" then h.getCourseProgress args.course_id
  else if name == "search_assignments" then h.searchAssignments args.query
  else Except.error (JsThrown.mcp ErrorCode.methodNotFound ("Unknown tool: " ++ name))

/-- The whole `CallToolRequestSchema` handler (`src/index.ts` lines 193-231):
the `switch` wrapped in `try/catch`, rethrowing `McpError`s unchanged and
wrapping every other thrown error as
`McpError(InternalError, "Error executing <name>: <message>")`. -/
def handleCallTool {α : Type} (h : Handlers α) (name : String) (args : ToolArgs) :
    Except McpErrorModel α :=
  match switchDispatch h name args with
  | Except.ok v => Except.ok v
  | Except.error (JsThrown.mcp c m) => Except.error ⟨c, m⟩
  | Except.error (JsThrown.js m) =>
      Except.error ⟨ErrorCode.internalError, "Error executing " ++ name ++ ": " ++ m⟩

/-! ## Query handlers over fetched data (`src/index.ts` lines 253-454) -/

/-- JS `Math.round` on the exact-rational model of a JS number: round half
toward positive infinity. -/
def jsRound (q : ℚ) : Int := Int.floor (q + 1/2)

/-- The past-due filter of `getAssignments` (`src/index.ts` lines 266-272):
keep an assignment when `due_at` is null or `new Date(due_at) >= now`. -/
def assignmentNotPast (now : Int) (a : Assignment) : Bool :=
  match a.due_at with
  | none => true
  | some d => decide (now ≤ d)

/-- Model of `getAssignments` (`src/index.ts` lines 253-292) after its fetch
step produced the assignment list: the list is filtered by
`assignmentNotPast` exactly when `includeCompleted` is false. -/
def getAssignments (now : Int) (includeCompleted : Bool)
    (assignments : List Assignment) : List Assignment :=
  if !includeCompleted then assignments.filter (assignmentNotPast now)
  else assignments

/-- One entry of `upcomingAssignments`: the spread assignment plus
`course_name` and the computed `days_until_due` (`src/index.ts` lines
310-314). -/
structure UpcomingAssignment where
  assignment : Assignment
  course_name : String
  days_until_due : Int
deriving DecidableEq, Repr

/-- The due-window filter of `getUpcomingAssignments` (`src/index.ts` lines
304-308): `due_at` non-null and `now <= dueDate <= cutoffDate`. -/
def inUpcomingWindow (now cutoff : Int) (a : Assignment) : Bool :=
  match a.due_at with
  | none => false
  | some d => decide (now ≤ d) && decide (d ≤ cutoff)

/-- The per-item mapping of `getUpcomingAssignments` (`src/index.ts` lines
310-314): attach the course name and
`days_until_due = Math.ceil((due - now) / 86400000)`; the unchecked non-null
assertion `a.due_at!` behaves as `new Date(null).getTime() = 0`, modelled by
`Option.getD 0`. -/
def mkUpcoming (now : Int) (c : Course) (a : Assignment) : UpcomingAssignment :=
  { assignment := a
    course_name := c.name
    days_until_due := Int.ceil (((a.due_at.getD 0 - now : Int) : ℚ) / 86400000) }

/-- The sort key of the final comparator (`src/index.ts` line 317):
`new Date(u.due_at).getTime()`. -/
def upcomingDueTime (u : UpcomingAssignment) : Int := u.assignment.due_at.getD 0

/-- Model of `getUpcomingAssignments` (`src/index.ts` lines 294-336): for
each fetched course, filter its fetched assignments to the
`[now, now + daysAhead days]` window, attach `course_name` and
`days_until_due`, concatenate, and stably sort ascending by due time. -/
def getUpcomingAssignments (now daysAhead : Int)
    (data : List (Course × List Assignment)) : List UpcomingAssignment :=
  let cutoff := now + daysAhead * 86400000
  let upcoming := data.flatMap fun p =>
    (p.2.filter (inUpcomingWindow now cutoff)).map (mkUpcoming now p.1)
  upcoming.mergeSort fun u v => decide (upcomingDueTime u ≤ upcomingDueTime v)

/-- The completion test of `getCourseProgress` (`src/index.ts` line 387):
the assignment has a submission object with a truthy `submitted_at`. -/
def submissionComplete (a : Assignment) : Bool :=
  match a.submission with
  | none => false
  | some s => s.submitted_at.isSome

/-- The `progress` block of the `getCourseProgress` response (`src/index.ts`
lines 403-408). -/
structure CourseProgress where
  total_assignments : Nat
  completed_assignments : Nat
  pending_assignments : Nat
  completion_rate : Int
deriving DecidableEq, Repr

/-- Model of `getCourseProgress` (`src/index.ts` lines 380-418) restricted to
its `progress` block, as a function of the fetched assignment list:
partition by `submissionComplete` and compute
`Math.round((completed / total) * 100)`. -/
def getCourseProgress (assignments : List Assignment) : CourseProgress :=
  let completedAssignments := assignments.filter submissionComplete
  let pendingAssignments := assignments.filter fun a => !submissionComplete a
  { total_assignments := assignments.length
    completed_assignments := completedAssignments.length
    pending_assignments := pendingAssignments.length
    completion_rate :=
      jsRound (((completedAssignments.length : ℚ) / (assignments.length : ℚ)) * 100) }

/-- An element of `allAssignments` in `searchAssignments`: the spread
assignment plus its owning course's name (`src/index.ts` lines 424-430). -/
structure SearchAssignment where
  assignment : Assignment
  course_name : String
deriving DecidableEq, Repr

/-- Check that `hay` begins with `needle` (character lists). -/
def charsStartWith : List Char → List Char → Bool
  | [], _ => true
  | _ :: _, [] => false
  | c :: cs, d :: ds => c == d && charsStartWith cs ds

/-- JS `hay.includes(needle)` on character lists: `needle` occurs
contiguously somewhere in `hay` (the empty needle always matches). -/
def charsContain (needle : List Char) : List Char → Bool
  | [] => needle.isEmpty
  | c :: rest => charsStartWith needle (c :: rest) || charsContain needle rest

/-- JS `s.toLowerCase()` modelled per character. -/
def jsToLower (s : String) : List Char := s.data.map Char.toLower

/-- The match predicate of `searchAssignments` (`src/index.ts` lines
432-435): the lower-cased query occurs in the lower-cased assignment name or
in the lower-cased owning-course name. -/
def searchMatch (query : String) (x : SearchAssignment) : Bool :=
  charsContain (jsToLower query) (jsToLower x.assignment.name) ||
    charsContain (jsToLower query) (jsToLower x.course_name)

/-- The `allAssignments` accumulation of `searchAssignments` (`src/index.ts`
lines 421-430): every fetched assignment of every fetched course, tagged with
the course's name. -/
def gatherAllAssignments (data : List (Course × List Assignment)) :
    List SearchAssignment :=
  data.flatMap fun p => p.2.map fun a => { assignment := a, course_name := p.1.name }

/-- Model of `searchAssignments` (`src/index.ts` lines 420-454). -/
def searchAssignments (query : String) (data : List (Course × List Assignment)) :
    List SearchAssignment :=
  (gatherAllAssignments data).filter (searchMatch query)

/-! ## Concrete values used by witnesses -/

/-- A concrete course. -/
def sampleCourse : Course :=
  { id := 7
    name := "Math 31A"
    course_code := "MATH31A"
    enrollment_term_id := 1 }

/-- A concrete assignment with a submitted submission. -/
def sampleAssignment : Assignment :=
  { id := 1
    name := "HW 1"
    due_at := some 1000
    points_possible := 10
    submission_types := ["online_upload"]
    course_id := 7
    html_url := "https://bruinlearn.ucla.edu/courses/7/assignments/1"
    submission := some { submitted_at := some "2026-01-01T00:00:00Z" } }

/-- Handlers whose every outcome is a thrown generic `Error "boom"`. -/
def failingHandlers : Handlers Nat :=
  { getCourses := Except.error (JsThrown.js "boom")
    getAssignments := fun _ _ => Except.error (JsThrown.js "boom")
    getUpcomingAssignments := fun _ => Except.error (JsThrown.js "boom")
    getGrades := fun _ => Except.error (JsThrown.js "boom")
    getCourseProgress := fun _ => Except.error (JsThrown.js "boom")
    searchAssignments := fun _ => Except.error (JsThrown.js "boom") }

/-- Handlers that record which handler ran and with which number argument. -/
def recordingHandlers : Handlers (String × Int) :=
  { getCourses := Except.ok ("get_courses", 0)
    getAssignments := fun _ _ => Except.ok ("get_assignments", 0)
    getUpcomingAssignments := fun d => Except.ok ("get_upcoming_assignments", d)
    getGrades := fun _ => Except.ok ("get_grades", 0)
    getCourseProgress := fun _ => Except.ok ("get_course_progress", 0)
    searchAssignments := fun _ => Except.ok ("search_assignments", 0) }

/-- A call-tool request with no arguments supplied. -/
def noArgs : ToolArgs :=
  { course_id := none, include_completed := none, days_ahead := none, query := none }

/-! ## Theorems: registry and dispatcher -/

/-- C8: the list-tools operation returns exactly six tool entries, with the
stable names `get_courses`, `get_assignments`, `get_upcoming_assignments`,
`get_grades`, `get_course_progress`, `search_assignments`. -/
theorem list_tools_returns_six_stable_names :
    listTools.length = 6 ∧
      listTools.map ToolDecl.name =
        ["get_courses", "get_assignments", "get_upcoming_assignments",
         "get_grades", "get_course_progress", "search_assignments"] :=
  ⟨rfl, rfl⟩

/-- C3: a call-tool request whose name is none of the six registered names
fails with a method-not-found `McpError`, propagated unchanged (not rewrapped
as an internal error). -/
theorem unknown_tool_yields_method_not_found {α : Type} (h : Handlers α)
    (args : ToolArgs) (name : String) (hname : name ∉ registeredToolNames) :
    handleCallTool h name args =
      Except.error ⟨ErrorCode.methodNotFound, "Unknown tool: " ++ name⟩ := by
  simp only [registeredToolNames, listTools, List.map, List.mem_cons,
    List.not_mem_nil, or_false, not_or] at hname
  obtain ⟨h1, h2, h3, h4, h5, h6⟩ := hname
  simp [handleCallTool, switchDispatch, h1, h2, h3, h4, h5, h6]

/-- C3 witness: the concrete unknown name `delete_course` produces the
method-not-found error. -/
theorem unknown_tool_yields_method_not_found_witness :
    handleCallTool recordingHandlers "delete_course" noArgs =
      Except.error ⟨ErrorCode.methodNotFound, "Unknown tool: " ++ "delete_course"⟩ :=
  unknown_tool_yields_method_not_found recordingHandlers noArgs "delete_course"
    (by decide)

/-- C7: when the selected handler throws, the dispatcher rethrows an
`McpError` unchanged and wraps any other thrown error as
`McpError(InternalError, "Error executing <name>: <message>")`. -/
theorem handler_failure_wrapping {α : Type} (h : Handlers α) (name : String)
    (args : ToolArgs) :
    (∀ c m, switchDispatch h name args = Except.error (JsThrown.mcp c m) →
      handleCallTool h name args = Except.error ⟨c, m⟩) ∧
    (∀ m, switchDispatch h name args = Except.error (JsThrown.js m) →
      handleCallTool h name args =
        Except.error ⟨ErrorCode.internalError, "Error executing " ++ name ++ ": " ++ m⟩) := by
  constructor
  · intro c m hm
    simp [handleCallTool, hm]
  · intro m hm
    simp [handleCallTool, hm]

/-- C7 witness: a handler that throws a generic `Error "boom"` surfaces as the
uniform internal error with the original message. -/
theorem handler_failure_wrapping_witness :
    handleCallTool failingHandlers "get_courses" noArgs =
      Except.error ⟨ErrorCode.internalError,
        "Error executing " ++ "get_courses" ++ ": " ++ "boom"⟩ :=
  (handler_failure_wrapping failingHandlers "get_courses" noArgs).2 "boom" rfl

/-- C9: calling `get_upcoming_assignments` with `days_ahead = 0` (or with
the argument absent) behaves identically to calling it with `days_ahead = 7`:
the dispatcher's truthiness check substitutes the default, so a zero-day
window cannot be requested. -/
theorem days_ahead_zero_defaults_to_seven {α : Type} (h : Handlers α)
    (args : ToolArgs) (hfalsy : args.days_ahead = none ∨ args.days_ahead = some 0) :
    handleCallTool h "get_upcoming_assignments" args =
      handleCallTool h "get_upcoming_assignments" { args with days_ahead := some 7 } := by
  have harg : jsOrNum args.days_ahead 7 = jsOrNum (some 7) 7 := by
    rcases hfalsy with h0 | h0 <;> simp [h0, jsOrNum]
  simp [handleCallTool, switchDispatch, harg]

/-- C9 witness: with `days_ahead = 0` the handler receives `7`, exactly as
with `days_ahead = 7`. -/
theorem days_ahead_zero_defaults_to_seven_witness :
    handleCallTool recordingHandlers "get_upcoming_assignments"
        { noArgs with days_ahead := some 0 } =
      handleCallTool recordingHandlers "get_upcoming_assignments"
        { { noArgs with days_ahead := some 0 } with days_ahead := some 7 } :=
  days_ahead_zero_defaults_to_seven recordingHandlers
    { noArgs with days_ahead := some 0 } (Or.inr rfl)

/-- C6: when the access-token environment variable is absent or empty, the
constructor fails with the configuration error before anything else (no
network request occurs in the constructor). -/
theorem missing_token_raises_config_error (env : ProcessEnv)
    (htok : env.canvasAccessToken = none ∨ env.canvasAccessToken = some "") :
    mkServerConfig env =
      Except.error "CANVAS_ACCESS_TOKEN environment variable is required" := by
  rcases htok with h0 | h0 <;> simp [mkServerConfig, h0, jsOrString]

/-- C6 witness: an empty environment yields the configuration error. -/
theorem missing_token_raises_config_error_witness :
    mkServerConfig { canvasBaseUrl := none, canvasAccessToken := none } =
      Except.error "CANVAS_ACCESS_TOKEN environment variable is required" :=
  missing_token_raises_config_error
    { canvasBaseUrl := none, canvasAccessToken := none } (Or.inl rfl)

/-! ## Theorems: query handlers -/

theorem assignmentNotPast_iff (now : Int) (a : Assignment) :
    assignmentNotPast now a = true ↔ ¬ ∃ d, a.due_at = some d ∧ d < now := by
  cases hd : a.due_at with
  | none => simp [assignmentNotPast, hd]
  | some d => simp [assignmentNotPast, hd, not_lt]

/-- C4: with `include_completed` false (the default), `get_assignments`
excludes exactly the fetched items whose due date is strictly before `now`
and keeps every other item (in particular items with no due date); with
`include_completed` true no item is excluded. -/
theorem assignments_exclude_exactly_past_due (now : Int) (l : List Assignment) :
    (∀ a, a ∈ getAssignments now false l ↔
      a ∈ l ∧ ¬ ∃ d, a.due_at = some d ∧ d < now) ∧
    getAssignments now true l = l := by
  refine ⟨fun a => ?_, by simp [getAssignments]⟩
  simp [getAssignments, List.mem_filter, assignmentNotPast_iff]

/-- C5: `search_assignments` returns exactly the gathered assignments whose
lower-cased name or lower-cased owning-course name contains the lower-cased
query, and the result depends on the query only through its lower-cased form
(so changing only the letter case of the query does not change the result). -/
theorem search_matches_case_insensitive (query : String)
    (data : List (Course × List Assignment)) :
    (∀ x, x ∈ searchAssignments query data ↔
      x ∈ gatherAllAssignments data ∧
        (charsContain (jsToLower query) (jsToLower x.assignment.name) = true ∨
         charsContain (jsToLower query) (jsToLower x.course_name) = true)) ∧
    (∀ q2, jsToLower q2 = jsToLower query →
      searchAssignments q2 data = searchAssignments query data) := by
  constructor
  · intro x
    simp [searchAssignments, List.mem_filter, searchMatch, Bool.or_eq_true]
  · intro q2 hq
    exact List.filter_congr fun x _ => by simp [searchMatch, hq]

theorem mem_upcoming_decompose (now daysAhead : Int)
    (data : List (Course × List Assignment)) (u : UpcomingAssignment)
    (hu : u ∈ getUpcomingAssignments now daysAhead data) :
    ∃ c a, a.due_at ≠ none ∧
      inUpcomingWindow now (now + daysAhead * 86400000) a = true ∧
      u = mkUpcoming now c a := by
  simp only [getUpcomingAssignments, List.mem_mergeSort, List.mem_flatMap,
    List.mem_map, List.mem_filter] at hu
  obtain ⟨p, _, a, ⟨_, hfilt⟩, rfl⟩ := hu
  refine ⟨p.1, a, ?_, hfilt, rfl⟩
  intro hnone
  simp [inUpcomingWindow, hnone] at hfilt

/-- C2: every item of `get_upcoming_assignments` has a due date inside the
window `[now, now + days_ahead days]`, and the returned list is sorted
ascending by due date. -/
theorem upcoming_window_and_sorted (now daysAhead : Int)
    (data : List (Course × List Assignment)) :
    (∀ u ∈ getUpcomingAssignments now daysAhead data,
      ∃ d, u.assignment.due_at = some d ∧
        now ≤ d ∧ d ≤ now + daysAhead * 86400000) ∧
    List.Pairwise (fun u v => upcomingDueTime u ≤ upcomingDueTime v)
      (getUpcomingAssignments now daysAhead data) := by
  constructor
  · intro u hu
    obtain ⟨c, a, hne, hfilt, rfl⟩ := mem_upcoming_decompose now daysAhead data u hu
    cases hd : a.due_at with
    | none => exact absurd hd hne
    | some d =>
      refine ⟨d, hd, ?_⟩
      simpa [inUpcomingWindow, hd] using hfilt
  · have hsorted := @List.sorted_mergeSort UpcomingAssignment
      (fun u v => decide (upcomingDueTime u ≤ upcomingDueTime v))
      (fun a b c hab hbc => by
        simp only [decide_eq_true_eq] at hab hbc ⊢
        exact le_trans hab hbc)
      (fun a b => by
        simp only [Bool.or_eq_true, decide_eq_true_eq]
        exact le_total _ _)
      (data.flatMap fun p =>
        (p.2.filter (inUpcomingWindow now (now + daysAhead * 86400000))).map
          (mkUpcoming now p.1))
    exact hsorted.imp fun h => by simpa using h

/-- C10: `get_upcoming_assignments` never returns an item whose due date is
absent: every returned item carries a present due date, and its
`days_until_due` is computed from that actual due date, so the non-null
assertion on `due_at` in that computation is valid. -/
theorem upcoming_due_at_never_null (now daysAhead : Int)
    (data : List (Course × List Assignment)) :
    ∀ u ∈ getUpcomingAssignments now daysAhead data,
      ∃ d, u.assignment.due_at = some d ∧
        u.days_until_due = Int.ceil (((d - now : Int) : ℚ) / 86400000) := by
  intro u hu
  obtain ⟨c, a, hne, _, rfl⟩ := mem_upcoming_decompose now daysAhead data u hu
  cases hd : a.due_at with
  | none => exact absurd hd hne
  | some d => exact ⟨d, hd, by simp [mkUpcoming, hd]⟩

/-- C10 witness: with `now = 0` and a 7-day window, the sample assignment
(due at millisecond 1000) is returned with a present due date and
`days_until_due` computed from it. -/
theorem upcoming_due_at_never_null_witness :
    ∃ d, (mkUpcoming 0 sampleCourse sampleAssignment).assignment.due_at = some d ∧
      (mkUpcoming 0 sampleCourse sampleAssignment).days_until_due =
        Int.ceil (((d - 0 : Int) : ℚ) / 86400000) :=
  upcoming_due_at_never_null 0 7 [(sampleCourse, [sampleAssignment])]
    (mkUpcoming 0 sampleCourse sampleAssignment)
    (by simp [getUpcomingAssignments, inUpcomingWindow, sampleAssignment,
      List.mergeSort_singleton])

theorem submissionComplete_eq (a : Assignment) :
    submissionComplete a = (a.submission.bind Submission.submitted_at).isSome := by
  cases hs : a.submission with
  | none => simp [submissionComplete, hs]
  | some s => simp [submissionComplete, hs, Option.bind]

/-- C1: for a course whose fetched assignment list is non-empty,
`get_course_progress` reports `completion_rate = round(completed/total*100)`
where `completed` counts the assignments having a submission with a
`submitted_at` timestamp and `total` is the list length; the `total > 0`
precondition keeps the division well-defined. -/
theorem completion_rate_is_rounded_percentage (assignments : List Assignment)
    (_htotal : 0 < assignments.length) :
    (getCourseProgress assignments).completion_rate =
      jsRound ((((assignments.countP fun a =>
            (a.submission.bind Submission.submitted_at).isSome) : ℚ) /
          ((assignments.length : ℕ) : ℚ)) * 100) := by
  have hcount : (assignments.countP fun a =>
        (a.submission.bind Submission.submitted_at).isSome) =
      (assignments.filter submissionComplete).length := by
    rw [← List.countP_eq_length_filter]
    exact List.countP_congr fun a _ => by rw [submissionComplete_eq]
  simp only [getCourseProgress, hcount]

/-- C1 witness: a one-element list with a submitted assignment satisfies the
precondition and the formula. -/
theorem completion_rate_is_rounded_percentage_witness :
    0 < [sampleAssignment].length ∧
    (getCourseProgress [sampleAssignment]).completion_rate =
      jsRound (((([sampleAssignment].countP fun a =>
            (a.submission.bind Submission.submitted_at).isSome) : ℚ) /
          (([sampleAssignment].length : ℕ) : ℚ)) * 100) :=
  ⟨by decide, completion_rate_is_rounded_percentage [sampleAssignment] (by decide)⟩
